import Mathlib

/-!
Shallow embedding of `scripts/audit.py` (repository audit tool) and proofs
about the claims of its specification.

The source program is a single Python file.  Its pure core consists of:
  * records: CSV rows as string-to-string mappings (`csv.DictReader` rows),
  * `parse_date`: `datetime.strptime` with format `"%Y-%m-%d:%H-%M-%S"`,
    returning `None` on empty/whitespace/unmatched/invalid input,
  * `high_level_audit`: aggregate counts over the record list,
  * `scoped_audit`: an ordered chain of optional filters plus a projection
    of each matched record to a detail row,
  * `main`: mode selection (`has_scoped_filters` truthiness test) and the
    run's exit code over the load outcome of the input file (`FileInput`),
    with the fallible operations modelled: the UTF-8 decode during
    loading, the percentage division of `print_high_level_report`, and the
    `timedelta`/`datetime` cutoff computation of the `recent_days`
    filter.

Machine integers are modelled as `Nat`/`Int` (Python integers are unbounded,
so no wrap-around is involved).  `datetime` values are modelled by a
calendar record `DateTime`; subtraction of datetimes and `timedelta.days`
are modelled by the proleptic-Gregorian day number (`daysFromCivil`,
identical to `datetime.toordinal` up to a fixed offset) and flooring
division, matching Python's `timedelta` normalisation.
-/

namespace Audit

/-- A CSV row as produced by `csv.DictReader`: a finite mapping from field
name to string value, modelled as an association list (first binding wins,
as in a Python dict there is at most one binding per key). -/
abbrev Record : Type := List (String × String)

/-- Python `r.get(k)`: the value bound to `k`, or `None` when absent. -/
def get (r : Record) (k : String) : Option String :=
  (r.find? (fun p => p.1 == k)).map (fun p => p.2)

/-- Python `r.get(k, d)`: the value bound to `k`, or the default `d`. -/
def getD (r : Record) (k : String) (d : String) : String :=
  (get r k).getD d

/-- A parsed timestamp (`datetime.datetime`); the program never uses
sub-second fields. -/
structure DateTime where
  year : Nat
  month : Nat
  day : Nat
  hour : Nat
  minute : Nat
  second : Nat
deriving DecidableEq, Repr

/-- Numeric value of a decimal digit character. -/
def digitVal (c : Char) : Nat := c.toNat - '0'.toNat

/-- Match exactly four decimal digits (CPython `_strptime` pattern for `%Y`
is `\d\d\d\d`), returning the value and the remaining characters. -/
def read4 : List Char → Option (Nat × List Char)
  | a :: b :: c :: d :: rest =>
    if a.isDigit && b.isDigit && c.isDigit && d.isDigit then
      some ((((digitVal a * 10 + digitVal b) * 10 + digitVal c) * 10 + digitVal d), rest)
    else
      none
  | _ => none

/-- Match a one- or two-digit numeric field of `_strptime`: the two-digit
alternatives accept exactly the values `lo2..hi2` and the one-digit
alternatives exactly `lo1..hi1` (e.g. `%m` is `1[0-2]|0[1-9]|[1-9]`, i.e.
two digits in `01..12` or one digit in `1..9`).  Two digits are consumed
greedily when they form an accepted two-digit value; since every field of
the format `"%Y-%m-%d:%H-%M-%S"` is followed by a non-digit literal or by
the end of the string, regex backtracking from the two-digit to the
one-digit alternative can never produce an overall match, so this
deterministic reader is exact. -/
def read2or1 (lo2 hi2 lo1 hi1 : Nat) : List Char → Option (Nat × List Char)
  | c1 :: c2 :: rest =>
    if c1.isDigit && c2.isDigit then
      let v := digitVal c1 * 10 + digitVal c2
      if lo2 ≤ v && v ≤ hi2 then some (v, rest) else none
    else if c1.isDigit && lo1 ≤ digitVal c1 && digitVal c1 ≤ hi1 then
      some (digitVal c1, c2 :: rest)
    else
      none
  | [c1] =>
    if c1.isDigit && lo1 ≤ digitVal c1 && digitVal c1 ≤ hi1 then
      some (digitVal c1, [])
    else
      none
  | [] => none

/-- Match one literal character. -/
def expectChar (c : Char) : List Char → Option (List Char)
  | c1 :: rest => if c1 == c then some rest else none
  | [] => none

/-- Gregorian leap-year rule used by `datetime`. -/
def isLeap (y : Nat) : Bool :=
  (y % 4 == 0 && y % 100 != 0) || y % 400 == 0

/-- Number of days in a month, as validated by the `datetime` constructor. -/
def daysInMonth (y m : Nat) : Nat :=
  if m == 2 then (if isLeap y then 29 else 28)
  else if m == 4 || m == 6 || m == 9 || m == 11 then 30
  else 31

/-- The `datetime.datetime` constructor called by `strptime`: rejects years
outside `1..9999`, invalid calendar days, and the leap seconds `60`/`61`
that the `%S` pattern itself accepts (the resulting `ValueError` is what
`parse_date` catches). -/
def mkDatetime (y mo d h mi s : Nat) : Option DateTime :=
  if 1 ≤ y && y ≤ 9999 && 1 ≤ mo && mo ≤ 12 && 1 ≤ d && d ≤ daysInMonth y mo
      && h ≤ 23 && mi ≤ 59 && s ≤ 59 then
    some (DateTime.mk y mo d h mi s)
  else
    none

/-- `datetime.strptime(s, "%Y-%m-%d:%H-%M-%S")` as an `Option`: the CPython
`_strptime` regular expression for this format, anchored at the start and
required to consume the whole string, followed by the constructor
validation.  Field patterns: `%Y` four digits; `%m` `1[0-2]|0[1-9]|[1-9]`;
`%d` `3[01]|[12]\d|0[1-9]|[1-9]`; `%H` `2[0-3]|[0-1]\d|\d`;
`%M` `[0-5]\d|\d`; `%S` `6[0-1]|[0-5]\d|\d`. -/
def strptimeMatch (s : String) : Option DateTime := do
  let cs := s.data
  let (y, cs) ← read4 cs
  let cs ← expectChar '-' cs
  let (mo, cs) ← read2or1 1 12 1 9 cs
  let cs ← expectChar '-' cs
  let (d, cs) ← read2or1 1 31 1 9 cs
  let cs ← expectChar ':' cs
  let (h, cs) ← read2or1 0 23 0 9 cs
  let cs ← expectChar '-' cs
  let (mi, cs) ← read2or1 0 59 0 9 cs
  let cs ← expectChar '-' cs
  let (se, cs) ← read2or1 0 61 0 9 cs
  if cs.isEmpty then mkDatetime y mo d h mi se else none

/-- Python `str.upper()`, character by character.  The program only ever
compares the result with the ASCII strings `"TRUE"`; on ASCII input this
agrees with Python's Unicode uppercasing. -/
def pyUpper (s : String) : String := String.mk (s.data.map Char.toUpper)

/-- Python `str.lower()`, character by character (ASCII-faithful, as for
`pyUpper`). -/
def pyLower (s : String) : String := String.mk (s.data.map Char.toLower)

/-- Python `s.strip() == ""`: every character of `s` is whitespace.
Python strips a slightly larger whitespace set than `Char.isWhitespace`,
but every string on which the two disagree also fails the digit pattern of
`strptime`, so `parse_date` is unaffected. -/
def strippedEmpty (s : String) : Bool := s.data.all Char.isWhitespace

/-- `parse_date` (audit.py lines 63-70): `None` for empty or
whitespace-only input, otherwise `strptime` with `ValueError` mapped to
`None`. -/
def parse_date (s : String) : Option DateTime :=
  if s == "" || strippedEmpty s then none else strptimeMatch s

/-- Day number of a proleptic Gregorian date (Howard Hinnant's
`days_from_civil`, with flooring division).  It agrees with Python's
`datetime.toordinal` up to a fixed offset, so differences of `toSecs`
values coincide with Python `datetime` subtraction in seconds. -/
def daysFromCivil (dt : DateTime) : Int :=
  let y : Int := if dt.month ≤ 2 then (dt.year : Int) - 1 else (dt.year : Int)
  let era : Int := Int.fdiv y 400
  let yoe : Int := y - era * 400
  let mp : Int := if (dt.month : Int) ≥ 3 then (dt.month : Int) - 3 else (dt.month : Int) + 9
  let doy : Int := Int.fdiv (153 * mp + 2) 5 + (dt.day : Int) - 1
  let doe : Int := yoe * 365 + Int.fdiv yoe 4 - Int.fdiv yoe 100 + doy
  era * 146097 + doe - 719468

/-- Total seconds of a `datetime` on the proleptic Gregorian time line. -/
def toSecs (dt : DateTime) : Int :=
  daysFromCivil dt * 86400 + (dt.hour : Int) * 3600 + (dt.minute : Int) * 60 + (dt.second : Int)

/-- `(now - dt).days`: Python `timedelta` normalises so that `.days` is the
floor of the difference in days (negative when `dt` is in the future). -/
def daysBetween (now dt : DateTime) : Int :=
  Int.fdiv (toSecs now - toSecs dt) 86400

/-- `not r.get("License") or r.get("License") == "NOT_FOUND"` (audit.py
lines 85-87 and 169-174): a missing key gives `None` (falsy), an empty
string is falsy, otherwise compare with `"NOT_FOUND"`. -/
def noLicenseCond (r : Record) : Bool :=
  match get r "License" with
  | none => true
  | some s => s == "" || s == "NOT_FOUND"

/-- `r.get("Active", "").upper() == "TRUE"` (audit.py line 76). -/
def isActive (r : Record) : Bool :=
  pyUpper (getD r "Active" "") == "TRUE"

/-- Classification of a record by its `Last Checked` field, following the
`if not last_checked / elif days <= 7 / elif days > 30` chain of audit.py
lines 105-111.  The chain has no final `else`, so a record whose parsed
check date lies 8 to 30 days in the past lands in no bucket; that
fall-through is made explicit as `unclassified`. -/
inductive CheckBucket where
  | neverChecked
  | recentlyChecked
  | outdated
  | unclassified
deriving DecidableEq, Repr

/-- The `Last Checked` bucket of one record at time `now`. -/
def classify (now : DateTime) (r : Record) : CheckBucket :=
  match parse_date (getD r "Last Checked" "") with
  | none => CheckBucket.neverChecked
  | some d =>
    if daysBetween now d ≤ 7 then CheckBucket.recentlyChecked
    else if daysBetween now d > 30 then CheckBucket.outdated
    else CheckBucket.unclassified

/-- `date_added and (now - date_added).days <= 30` (audit.py lines 101-103). -/
def recentlyAddedCond (now : DateTime) (r : Record) : Bool :=
  match parse_date (getD r "Date Added" "") with
  | none => false
  | some d => daysBetween now d ≤ 30

/-- Insertion-ordered tally of a list of strings: the contents of a Python
`Counter`.  The `most_common()` presentation ordering used when rendering
the frequency tables is output formatting only and is not modelled. -/
def tally (l : List String) : List (String × Nat) :=
  l.foldl
    (fun acc s =>
      if acc.any (fun p => p.1 == s) then
        acc.map (fun p => if p.1 == s then (p.1, p.2 + 1) else p)
      else
        acc ++ [(s, 1)])
    []

/-- The dictionary returned by `high_level_audit` (audit.py lines 118-133).
The `top_authors` entry (`authors.most_common(10)`) is a truncated
re-ordering of the `authors` tally used purely for display and is omitted. -/
structure HighLevel where
  total_resources : Nat
  active : Nat
  inactive : Nat
  categories : List (String × Nat)
  sub_categories : List (String × Nat)
  licenses : List (String × Nat)
  no_license : Nat
  unique_authors : Nat
  recently_added : Nat
  recently_checked : Nat
  never_checked : Nat
  outdated_checks : Nat
  removed_from_origin : Nat
deriving DecidableEq, Repr

/-- `high_level_audit` (audit.py lines 73-133).  The source accumulates the
four freshness buckets as lists and returns their lengths; a length of a
filtered accumulation is a `countP`. -/
def high_level_audit (now : DateTime) (resources : List Record) : HighLevel :=
  HighLevel.mk
    resources.length
    (resources.countP isActive)
    (resources.length - resources.countP isActive)
    (tally (resources.map (fun r => getD r "Category" "Unknown")))
    (tally (resources.map (fun r => getD r "Sub-Category" "Unknown")))
    (tally (resources.map (fun r => getD r "License" "Unknown")))
    (resources.countP noLicenseCond)
    ((tally (resources.map (fun r => getD r "Author Name" "Unknown"))).countP
      (fun p => !(p.1 == "Unknown")))
    (resources.countP (recentlyAddedCond now))
    (resources.countP (fun r => classify now r == CheckBucket.recentlyChecked))
    (resources.countP (fun r => classify now r == CheckBucket.neverChecked))
    (resources.countP (fun r => classify now r == CheckBucket.outdated))
    (resources.countP (fun r => pyUpper (getD r "Removed From Origin" "") == "TRUE"))

/-- One equality-filter stage of `scoped_audit` (audit.py lines 150-164):
`if v:` skips the stage when the argument is `None` or the empty string,
otherwise it keeps the records whose field (defaulted to `""`) equals the
argument case-insensitively. -/
def strFilter (key : String) (v : Option String) (l : List Record) : List Record :=
  match v with
  | none => l
  | some s =>
    if s == "" then l
    else l.filter (fun r => pyLower (getD r key "") == pyLower s)

/-- One boolean-flag stage of `scoped_audit` (audit.py lines 166-174). -/
def boolFilter (b : Bool) (p : Record → Bool) (l : List Record) : List Record :=
  if b then l.filter p else l

/-- The `recent_days` stage of `scoped_audit` (audit.py lines 176-183):
applied whenever the argument `is not None` (even when zero), it keeps the
records whose `Date Added` parses and is at or after
`now - timedelta(days=n)`.  `datetime` comparison is the lexicographic
order on the calendar fields, i.e. the order of `toSecs`, and
`toSecs (now - timedelta(days=n)) = toSecs now - n * 86400`. -/
def recentFilter (now : DateTime) (rd : Option Int) (l : List Record) : List Record :=
  match rd with
  | none => l
  | some n =>
    l.filter (fun r =>
      match parse_date (getD r "Date Added" "") with
      | none => false
      | some d => toSecs d ≥ toSecs now - n * 86400)

/-- The filter chain of `scoped_audit` (audit.py lines 147-183), applied in
source order: category, sub-category, author, license, inactive-only,
no-license-only, recent-days. -/
def scopedFilter (now : DateTime) (category sub_category author license_filter : Option String)
    (inactive_only no_license_only : Bool) (recent_days : Option Int)
    (resources : List Record) : List Record :=
  let filtered := resources
  let filtered := strFilter "Category" category filtered
  let filtered := strFilter "Sub-Category" sub_category filtered
  let filtered := strFilter "Author Name" author filtered
  let filtered := strFilter "License" license_filter filtered
  let filtered := boolFilter inactive_only (fun r => !(isActive r)) filtered
  let filtered := boolFilter no_license_only noLicenseCond filtered
  recentFilter now recent_days filtered

/-- The per-record detail row built for each matched resource
(audit.py lines 201-221). -/
structure ResourceDetail where
  id : String
  name : String
  category : String
  sub_category : String
  active : String
  license : String
  author : String
  primary_link : String
  last_checked : String
  days_since_check : Option Int
  removed_from_origin : String
deriving DecidableEq, Repr

/-- Projection of a record to its detail row (audit.py lines 201-221). -/
def detailOf (now : DateTime) (r : Record) : ResourceDetail :=
  ResourceDetail.mk
    (getD r "ID" "")
    (getD r "Display Name" "")
    (getD r "Category" "")
    (getD r "Sub-Category" "")
    (getD r "Active" "")
    (getD r "License" "")
    (getD r "Author Name" "")
    (getD r "Primary Link" "")
    (getD r "Last Checked" "")
    ((parse_date (getD r "Last Checked" "")).map (fun d => daysBetween now d))
    (getD r "Removed From Origin" "")

/-- The result of `scoped_audit` (audit.py lines 186-223).  The
`filter_criteria` entry merely echoes the arguments and is omitted. -/
structure ScopedResult where
  matched_count : Nat
  resources : List ResourceDetail
deriving DecidableEq, Repr

/-- `scoped_audit` (audit.py lines 136-223). -/
def scoped_audit (now : DateTime) (category sub_category author license_filter : Option String)
    (inactive_only no_license_only : Bool) (recent_days : Option Int)
    (resources : List Record) : ScopedResult :=
  let filtered := scopedFilter now category sub_category author license_filter
    inactive_only no_license_only recent_days resources
  ScopedResult.mk filtered.length (filtered.map (detailOf now))

/-- The parsed command line (audit.py lines 339-358): absent string options
are `None`, the two flags default to `False`, `--recent-days` is an absent
or present integer, `--json` a flag. -/
structure Args where
  category : Option String
  sub_category : Option String
  author : Option String
  license_filter : Option String
  inactive : Bool
  no_license : Bool
  recent_days : Option Int
  json : Bool
deriving DecidableEq, Repr

/-- Python truthiness of an optional string: `None` and `""` are falsy. -/
def truthyStr : Option String → Bool
  | none => false
  | some s => !(s == "")

/-- Python truthiness of an optional integer: `None` and `0` are falsy. -/
def truthyInt : Option Int → Bool
  | none => false
  | some n => !(n == 0)

/-- `has_scoped_filters = any([...])` (audit.py lines 364-374): the
truthiness of each argument, disjoined. -/
def hasScopedFilters (a : Args) : Bool :=
  truthyStr a.category || truthyStr a.sub_category || truthyStr a.author
    || truthyStr a.license_filter || a.inactive || a.no_license
    || truthyInt a.recent_days

/-- Which of the two reports `main` produces. -/
inductive Mode where
  | highLevel
  | scoped
deriving DecidableEq, Repr

/-- Mode selection in `main` (audit.py line 376). -/
def mainMode (a : Args) : Mode :=
  if hasScopedFilters a then Mode.scoped else Mode.highLevel

/-- Python integer division as a fallible operation: dividing by zero
raises `ZeroDivisionError`. -/
def pyDiv (a b : Nat) : Except String Nat :=
  if b == 0 then Except.error "ZeroDivisionError" else Except.ok (a / b)

/-- The fallible part of `print_high_level_report` (audit.py lines
226-269): the overview lines 234-235 divide `active` and `inactive` by
`total_resources` to render percentages (float division in the source; the
only way it can fail is a zero divisor).  Every other statement of the
printer is pure text output. -/
def print_high_level_report (d : HighLevel) : Except String Unit :=
  match pyDiv (d.active * 100) d.total_resources with
  | Except.error e => Except.error e
  | Except.ok _ =>
    match pyDiv (d.inactive * 100) d.total_resources with
    | Except.error e => Except.error e
    | Except.ok _ => Except.ok ()

/-- The outcome of `load_resources` opening the input CSV (audit.py lines
48-60).  `missing`: the existence check fails and the function calls
`sys.exit(1)`.  `undecodable`: the file exists but its bytes are not valid
UTF-8, so reading it through `open(csv_path, encoding="utf-8")` at line 55
raises an uncaught `UnicodeDecodeError` (the process dies with a traceback
and exit code 1).  `loaded rows`: reading and CSV parsing succeed and every
row is a complete string-valued mapping, the type `list[dict[str, str]]`
the loader is annotated with.  Tables outside that type — e.g. a row
shorter than the header, whose missing cells `DictReader` fills with
`None` and on which both audits then crash in `.upper()`/`.lower()`, or a
field beyond the `csv` module's field-size limit, which aborts parsing —
are not representable in the record model used throughout this
development and are outside this run model. -/
inductive FileInput where
  | missing
  | undecodable
  | loaded (rows : List Record)
deriving DecidableEq, Repr

/-- The `timedelta(days=n)` constructor raises `OverflowError` unless the
day count has magnitude at most `999999999`. -/
def timedeltaDaysOk (n : Int) : Bool := n.natAbs ≤ 999999999

/-- Day number of `datetime.min`'s date, `0001-01-01`. -/
def minDateOrdinal : Int := daysFromCivil (DateTime.mk 1 1 1 0 0 0)

/-- Day number of `datetime.max`'s date, `9999-12-31`. -/
def maxDateOrdinal : Int := daysFromCivil (DateTime.mk 9999 12 31 0 0 0)

/-- Whether `datetime.now() - timedelta(days=recent_days)` (audit.py line
177) succeeds: the `timedelta` construction must not overflow, and since
subtracting whole days preserves the time of day, the difference is a
valid `datetime` exactly when the resulting date ordinal stays within
`datetime.min .. datetime.max`; otherwise the subtraction raises an
uncaught `OverflowError` ("date value out of range"). -/
def cutoffOk (now : DateTime) (n : Int) : Bool :=
  timedeltaDaysOk n
    && minDateOrdinal ≤ daysFromCivil now - n
    && daysFromCivil now - n ≤ maxDateOrdinal

/-- The process exit code of one run of `main` (audit.py lines 314-408),
given the load outcome of the input CSV and the parsed command line.
`missing` exits 1 via `sys.exit(1)`; `undecodable` dies in
`load_resources` with exit code 1.  With the table loaded, the scoped path
fails (uncaught `OverflowError`, exit code 1) exactly when `recent_days`
is present and the cutoff computation at line 177 overflows — the
equality filters, the flag filters, the detail projection and both scoped
renderings are infallible on string-valued rows — and the high-level path
fails (uncaught `ZeroDivisionError`, exit code 1) exactly when the
human-readable report's percentage division divides by zero.  Standard
output is assumed writable and able to encode the report text; I/O
environment failures are outside the model. -/
def runProgram (now : DateTime) (file : FileInput) (a : Args) : Nat :=
  match file with
  | FileInput.missing => 1
  | FileInput.undecodable => 1
  | FileInput.loaded resources =>
    match mainMode a with
    | Mode.scoped =>
      match a.recent_days with
      | none => 0
      | some n => if cutoffOk now n then 0 else 1
    | Mode.highLevel =>
      if a.json then 0
      else
        match print_high_level_report (high_level_audit now resources) with
        | Except.ok _ => 0
        | Except.error _ => 1

/-- Modelled from the claim's words, not from the source: a string is "in
the exact format YYYY-MM-DD:HH-MM-SS" when it consists of a four-digit
year, two-digit month, day, hour, minute and second, with the literal
separators in place.  Used only to compare the specification's description
of `parse_date` with the source behaviour. -/
def spec_exact_format (s : String) : Bool :=
  match s.data with
  | [y1, y2, y3, y4, s1, mo1, mo2, s2, d1, d2, s3, h1, h2, s4, mi1, mi2, s5, se1, se2] =>
    y1.isDigit && y2.isDigit && y3.isDigit && y4.isDigit && s1 == '-'
      && mo1.isDigit && mo2.isDigit && s2 == '-' && d1.isDigit && d2.isDigit
      && s3 == ':' && h1.isDigit && h2.isDigit && s4 == '-'
      && mi1.isDigit && mi2.isDigit && s5 == '-' && se1.isDigit && se2.isDigit
  | _ => false

/-! Concrete fixtures used by example conjuncts, counterexamples and
witnesses. -/

/-- A fixed report time used for concrete instances. -/
def now0 : DateTime := DateTime.mk 2024 6 1 0 0 0

/-- A record with `Active=TRUE`. -/
def rT : Record := [("Active", "TRUE")]

/-- A record with `Active=FALSE`. -/
def rF1 : Record := [("Active", "FALSE")]

/-- A second record with `Active=FALSE`. -/
def rF2 : Record := [("Active", "FALSE")]

/-- A record whose `Category` is `"X"`. -/
def rX : Record := [("Category", "X")]

/-- A record whose `Category` is `"Dev"`. -/
def rDev : Record := [("Category", "Dev")]

/-- A record last checked 12 days before `now0`: inside the gap of the
`Last Checked` bucket chain. -/
def rGap : Record := [("Last Checked", "2024-05-20:00-00-00")]

/-- The command line with no flags at all. -/
def argsEmpty : Args := Args.mk none none none none false false none false

/-- C2: for every record list the high-level audit's `active` count is the
number of records whose `Active` field uppercases to `"TRUE"`, `inactive`
is `total - active`, and `active + inactive = total`; on the concrete
three-record example with one `TRUE` and two `FALSE` the report shows
`active = 1`, `inactive = 2`, `total = 3`. -/
theorem active_inactive_partition :
    (∀ now rs, (high_level_audit now rs).active
          = rs.countP (fun r => pyUpper (getD r "Active" "") == "TRUE")
        ∧ (high_level_audit now rs).inactive
          = (high_level_audit now rs).total_resources - (high_level_audit now rs).active
        ∧ (high_level_audit now rs).active + (high_level_audit now rs).inactive
          = (high_level_audit now rs).total_resources)
      ∧ (high_level_audit now0 [rT, rF1, rF2]).active = 1
      ∧ (high_level_audit now0 [rT, rF1, rF2]).inactive = 2
      ∧ (high_level_audit now0 [rT, rF1, rF2]).total_resources = 3 := by
  refine ⟨fun now rs => ⟨rfl, rfl, ?_⟩, by decide, by decide, by decide⟩
  have h : rs.countP isActive ≤ rs.length := List.countP_le_length isActive
  simp only [high_level_audit]
  omega

/-- C5: with no active filters the filter chain of the scoped audit is the
identity, and the scoped audit reports every input record, in order. -/
theorem zero_filters_identity :
    ∀ now rs, scopedFilter now none none none none false false none rs = rs
      ∧ (scoped_audit now none none none none false false none rs).matched_count = rs.length
      ∧ (scoped_audit now none none none none false false none rs).resources
          = rs.map (detailOf now) :=
  fun _ _ => ⟨rfl, rfl, rfl⟩

/-- C9: `--recent-days 0` with no other filter flag is falsy in the
`has_scoped_filters` truthiness test, so `main` selects the high-level
report rather than a scoped report. -/
theorem recent_days_zero_high_level :
    ∀ j : Bool, hasScopedFilters (Args.mk none none none none false false (some 0) j) = false
      ∧ mainMode (Args.mk none none none none false false (some 0) j) = Mode.highLevel :=
  fun _ => ⟨rfl, rfl⟩

/-- C4 counterexample: `"2024-1-01:00-00-00"` is not in the exact format
`YYYY-MM-DD:HH-MM-SS` (its month has a single digit), yet `parse_date`
accepts it: `strptime`'s `%m` pattern also matches an unpadded month, so
the claim that every string not in the exact format yields an absent value
is false on this input. -/
theorem unpadded_month_counterexample :
    spec_exact_format "2024-1-01:00-00-00" = false
      ∧ parse_date "2024-1-01:00-00-00" = some (DateTime.mk 2024 1 1 0 0 0) := by
  exact ⟨rfl, rfl⟩

/-- C6: a record counts toward `no_license` exactly when its `License`
field is absent, empty, or `"NOT_FOUND"`; each such record contributes
exactly one (the count is a `countP`), and the no-license-only filter
selects exactly these records, in order. -/
theorem no_license_characterisation :
    ∀ now rs,
      (high_level_audit now rs).no_license
          = rs.countP (fun r => decide (get r "License" = none ∨ get r "License" = some ""
              ∨ get r "License" = some "NOT_FOUND"))
        ∧ scopedFilter now none none none none false true none rs
          = rs.filter (fun r => decide (get r "License" = none ∨ get r "License" = some ""
              ∨ get r "License" = some "NOT_FOUND")) := by
  have hpt : ∀ r : Record, noLicenseCond r
      = decide (get r "License" = none ∨ get r "License" = some ""
          ∨ get r "License" = some "NOT_FOUND") := by
    intro r
    unfold noLicenseCond
    cases hg : get r "License" with
    | none => simp [hg]
    | some s =>
      simp only [hg]
      by_cases h1 : s = ""
      · simp [h1]
      · by_cases h2 : s = "NOT_FOUND" <;> simp [h1, h2]
  have hfun : noLicenseCond
      = fun r => decide (get r "License" = none ∨ get r "License" = some ""
          ∨ get r "License" = some "NOT_FOUND") := funext hpt
  intro now rs
  constructor
  · show rs.countP noLicenseCond = _
    rw [hfun]
  · show rs.filter noLicenseCond = _
    rw [hfun]

/-- C4 (amended): `parse_date` yields an absent value exactly on
empty/whitespace-only input or when the `strptime` pattern match (which
also accepts unpadded single-digit fields) or the calendar validation
fails; being a total function into `Option`, it never raises.  In the
high-level audit, the `never_checked` count is exactly the number of
records whose `Last Checked` value fails to parse. -/
theorem parse_date_absent_amended :
    (∀ s : String, parse_date s = none
        ↔ (strippedEmpty s = true ∨ strptimeMatch s = none))
      ∧ (∀ now rs, (high_level_audit now rs).never_checked
          = rs.countP (fun r => decide (parse_date (getD r "Last Checked" "") = none))) := by
  constructor
  · intro s
    unfold parse_date
    by_cases hc : (s == "" || strippedEmpty s) = true
    · rcases Bool.or_eq_true_iff.mp hc with he | hw
      · have hs : s = "" := by simpa using he
        subst hs
        simp [strippedEmpty]
      · simp [hc, hw]
    · have hw : strippedEmpty s = false := by
        cases hsw : strippedEmpty s
        · rfl
        · exact absurd (by simp [hsw]) hc
      rw [if_neg hc]
      simp [hw]
  · intro now rs
    show rs.countP (fun r => classify now r == CheckBucket.neverChecked) = _
    have hpt : (fun r => classify now r == CheckBucket.neverChecked)
        = fun r => decide (parse_date (getD r "Last Checked" "") = none) := by
      funext r
      unfold classify
      cases hp : parse_date (getD r "Last Checked" "") with
      | none => simp
      | some d =>
        by_cases h7 : daysBetween now d ≤ 7
        · simp [h7]
        · by_cases h30 : daysBetween now d > 30 <;> simp [h7, h30]
    rw [hpt]

/-- C3 counterexample: with the empty string as filter value, the truthy
test `if category:` skips the filter, so the scoped audit returns a record
whose `Category` (`"X"`) does not equal `""` case-insensitively — the
claim's description of the output is false for the filter value `""`. -/
theorem empty_filter_value_counterexample :
    scopedFilter now0 (some "") none none none false false none [rX]
        ≠ [rX].filter (fun r => pyLower (getD r "Category" "") == pyLower "")
      ∧ scopedFilter now0 (some "") none none none false false none [rX] = [rX]
      ∧ [rX].filter (fun r => pyLower (getD r "Category" "") == pyLower "") = [] := by
  exact ⟨by decide, rfl, rfl⟩

/-- C3 (amended): for every non-empty filter value `V`, applying exactly
one of the four string filters keeps exactly the records whose
corresponding field (defaulted to the empty string) equals `V`
case-insensitively, in input order; the scoped audit reports the length of
the filtered list and the detail projection of its records, in the same
order. -/
theorem single_string_filter (now : DateTime) (rs : List Record) (v : String)
    (h : v ≠ "") :
    scopedFilter now (some v) none none none false false none rs
        = rs.filter (fun r => pyLower (getD r "Category" "") == pyLower v)
      ∧ scopedFilter now none (some v) none none false false none rs
        = rs.filter (fun r => pyLower (getD r "Sub-Category" "") == pyLower v)
      ∧ scopedFilter now none none (some v) none false false none rs
        = rs.filter (fun r => pyLower (getD r "Author Name" "") == pyLower v)
      ∧ scopedFilter now none none none (some v) false false none rs
        = rs.filter (fun r => pyLower (getD r "License" "") == pyLower v)
      ∧ (∀ c s a l ia nl rd rs', scoped_audit now c s a l ia nl rd rs'
          = ScopedResult.mk (scopedFilter now c s a l ia nl rd rs').length
              ((scopedFilter now c s a l ia nl rd rs').map (detailOf now))) := by
  have hv : (v == "") = false := by simpa using h
  refine ⟨?_, ?_, ?_, ?_, fun _ _ _ _ _ _ _ _ => rfl⟩ <;>
    simp [scopedFilter, strFilter, boolFilter, recentFilter, hv]

/-- Witness for the amended C3 theorem at a concrete input: filtering two
records by category `"DEV"` keeps exactly the record whose category is
`"Dev"`. -/
theorem single_string_filter_witness :
    scopedFilter now0 (some "DEV") none none none false false none [rDev, rX]
      = [rDev, rX].filter (fun r => pyLower (getD r "Category" "") == pyLower "DEV") :=
  (single_string_filter now0 [rDev, rX] "DEV" (by decide)).1

/-- Pointwise reading of the `recently_checked` membership test: the
`Last Checked` value parses and lies at most 7 days in the past. -/
theorem classify_eq_recent (now : DateTime) (r : Record) :
    (classify now r == CheckBucket.recentlyChecked)
      = (parse_date (getD r "Last Checked" "")).any (fun d => decide (daysBetween now d ≤ 7)) := by
  unfold classify
  cases hp : parse_date (getD r "Last Checked" "") with
  | none => simp [Option.any]
  | some d =>
    by_cases h7 : daysBetween now d ≤ 7
    · simp [Option.any, h7]
    · by_cases h30 : daysBetween now d > 30 <;> simp [Option.any, h7, h30]

/-- Pointwise reading of the `outdated` membership test: the chain's
`elif days > 30` arm is reached only past the `days <= 7` arm, but
`days > 30` already excludes `days <= 7`, so membership is equivalent to
the parsed value lying more than 30 days in the past. -/
theorem classify_eq_outdated (now : DateTime) (r : Record) :
    (classify now r == CheckBucket.outdated)
      = (parse_date (getD r "Last Checked" "")).any (fun d => decide (daysBetween now d > 30)) := by
  unfold classify
  cases hp : parse_date (getD r "Last Checked" "") with
  | none => simp [Option.any]
  | some d =>
    by_cases h7 : daysBetween now d ≤ 7
    · have h30 : ¬daysBetween now d > 30 := by omega
      simp [Option.any, h7, h30]
    · by_cases h30 : daysBetween now d > 30 <;> simp [Option.any, h7, h30]

/-- Pointwise reading of the `never_checked` membership test: the
`Last Checked` value fails to parse. -/
theorem classify_eq_never (now : DateTime) (r : Record) :
    (classify now r == CheckBucket.neverChecked)
      = decide (parse_date (getD r "Last Checked" "") = none) := by
  unfold classify
  cases hp : parse_date (getD r "Last Checked" "") with
  | none => simp
  | some d =>
    by_cases h7 : daysBetween now d ≤ 7
    · simp [h7]
    · by_cases h30 : daysBetween now d > 30 <;> simp [h7, h30]

/-- Every record falls in exactly one of the four `Last Checked` cells, so
the three reported bucket counts plus the silent fall-through count equal
the total. -/
theorem classify_partition (now : DateTime) (rs : List Record) :
    rs.countP (fun r => classify now r == CheckBucket.neverChecked)
        + rs.countP (fun r => classify now r == CheckBucket.recentlyChecked)
        + rs.countP (fun r => classify now r == CheckBucket.outdated)
        + rs.countP (fun r => classify now r == CheckBucket.unclassified)
      = rs.length := by
  induction rs with
  | nil => rfl
  | cons r t ih =>
    simp only [List.countP_cons, List.length_cons]
    cases hc : classify now r <;> simp [hc] <;> omega

/-- C7: at a fixed report time the four freshness buckets of the
high-level audit count exactly the records the claim describes: `Date
Added` parsed and at most 30 days old; `Last Checked` parsed and at most 7
days old; `Last Checked` absent or unparseable; `Last Checked` parsed and
more than 30 days old. -/
theorem freshness_buckets :
    ∀ now rs,
      (high_level_audit now rs).recently_added
          = rs.countP (fun r => (parse_date (getD r "Date Added" "")).any
              (fun d => decide (daysBetween now d ≤ 30)))
        ∧ (high_level_audit now rs).recently_checked
          = rs.countP (fun r => (parse_date (getD r "Last Checked" "")).any
              (fun d => decide (daysBetween now d ≤ 7)))
        ∧ (high_level_audit now rs).never_checked
          = rs.countP (fun r => decide (parse_date (getD r "Last Checked" "") = none))
        ∧ (high_level_audit now rs).outdated_checks
          = rs.countP (fun r => (parse_date (getD r "Last Checked" "")).any
              (fun d => decide (daysBetween now d > 30))) := by
  intro now rs
  refine ⟨?_, ?_, ?_, ?_⟩
  · show rs.countP (recentlyAddedCond now) = _
    congr 1
    funext r
    unfold recentlyAddedCond
    cases hp : parse_date (getD r "Date Added" "") <;> simp [Option.any]
  · show rs.countP (fun r => classify now r == CheckBucket.recentlyChecked) = _
    congr 1
    funext r
    exact classify_eq_recent now r
  · show rs.countP (fun r => classify now r == CheckBucket.neverChecked) = _
    congr 1
    funext r
    exact classify_eq_never now r
  · show rs.countP (fun r => classify now r == CheckBucket.outdated) = _
    congr 1
    funext r
    exact classify_eq_outdated now r

/-- C8: the three `Last Checked` buckets are not a partition: a record
whose check date parses to strictly between 7 and 31 days before now is
counted in none of them (the chain has no arm for it), each record lands
in at most one bucket (their counts plus the fall-through count equal the
total), and on a concrete one-record input the three counts sum to 0 while
the total is 1. -/
theorem check_buckets_gap :
    (∀ now r d, parse_date (getD r "Last Checked" "") = some d →
        7 < daysBetween now d → daysBetween now d < 31 →
        classify now r ≠ CheckBucket.neverChecked
          ∧ classify now r ≠ CheckBucket.recentlyChecked
          ∧ classify now r ≠ CheckBucket.outdated)
      ∧ (∀ now rs,
          (high_level_audit now rs).never_checked
              + (high_level_audit now rs).recently_checked
              + (high_level_audit now rs).outdated_checks
            ≤ (high_level_audit now rs).total_resources)
      ∧ (high_level_audit now0 [rGap]).never_checked
            + (high_level_audit now0 [rGap]).recently_checked
            + (high_level_audit now0 [rGap]).outdated_checks
          < (high_level_audit now0 [rGap]).total_resources := by
  refine ⟨?_, ?_, by decide⟩
  · intro now r d hp h7 h31
    have hu : classify now r = CheckBucket.unclassified := by
      unfold classify
      rw [hp]
      have hn7 : ¬daysBetween now d ≤ 7 := by omega
      have hn30 : ¬daysBetween now d > 30 := by omega
      simp [hn7, hn30]
    simp [hu]
  · intro now rs
    have h := classify_partition now rs
    show rs.countP (fun r => classify now r == CheckBucket.neverChecked)
        + rs.countP (fun r => classify now r == CheckBucket.recentlyChecked)
        + rs.countP (fun r => classify now r == CheckBucket.outdated)
      ≤ rs.length
    omega

/-- Witness for the C8 theorem: the concrete record checked 12 days before
the fixed report time is counted in none of the three buckets. -/
theorem check_buckets_gap_witness :
    classify now0 rGap ≠ CheckBucket.neverChecked
      ∧ classify now0 rGap ≠ CheckBucket.recentlyChecked
      ∧ classify now0 rGap ≠ CheckBucket.outdated :=
  check_buckets_gap.1 now0 rGap (DateTime.mk 2024 5 20 0 0 0) (by decide) (by decide) (by decide)

/-- Each equality-filter stage only selects from its input. -/
theorem strFilter_sub (k : String) (v : Option String) (l : List Record) :
    List.Sublist (strFilter k v l) l := by
  cases v with
  | none => exact List.Sublist.refl l
  | some s =>
    by_cases hs : (s == "") = true
    · have he : strFilter k (some s) l = l := by
        simp [strFilter, hs]
      rw [he]
    · have he : strFilter k (some s) l
          = l.filter (fun r => pyLower (getD r k "") == pyLower s) := by
        simp [strFilter, hs]
      rw [he]
      exact List.filter_sublist l

/-- Each boolean-flag stage only selects from its input. -/
theorem boolFilter_sub (b : Bool) (p : Record → Bool) (l : List Record) :
    List.Sublist (boolFilter b p l) l := by
  unfold boolFilter
  cases b
  · exact List.Sublist.refl l
  · exact List.filter_sublist l

/-- The recent-days stage only selects from its input. -/
theorem recentFilter_sub (now : DateTime) (rd : Option Int) (l : List Record) :
    List.Sublist (recentFilter now rd l) l := by
  unfold recentFilter
  cases rd with
  | none => exact List.Sublist.refl l
  | some n => exact List.filter_sublist l

/-- C10: neither audit mutates its input.  In this embedding both audits
are pure functions of the record list — the source only reads its input
(comprehensions, `len`, `Counter`, `dict.get`), which is what makes the
translation to pure functions faithful — and the statable residue of the
claim is proved: the filter chain returns a sublist of the input (every
output record is an input record, unchanged and in order), the scoped
result is built only from that sublist's length and field projections, and
the high-level audit reads the list without altering its length. -/
theorem audits_read_only :
    ∀ now c s a l ia nl rd rs,
      List.Sublist (scopedFilter now c s a l ia nl rd rs) rs
        ∧ (scoped_audit now c s a l ia nl rd rs).matched_count
            = (scopedFilter now c s a l ia nl rd rs).length
        ∧ (scoped_audit now c s a l ia nl rd rs).resources
            = (scopedFilter now c s a l ia nl rd rs).map (detailOf now)
        ∧ (high_level_audit now rs).total_resources = rs.length := by
  intro now c s a l ia nl rd rs
  refine ⟨?_, rfl, rfl, rfl⟩
  exact (recentFilter_sub now rd _).trans
    ((boolFilter_sub nl noLicenseCond _).trans
      ((boolFilter_sub ia (fun r => !(isActive r)) _).trans
        ((strFilter_sub "License" l _).trans
          ((strFilter_sub "Author Name" a _).trans
            ((strFilter_sub "Sub-Category" s _).trans
              (strFilter_sub "Category" c rs))))))

/-- C1 counterexample: three runs with the input file present exit with a
non-zero code.  A loaded table with zero records in the default run (no
filters, no JSON) divides by the zero total when rendering the overview
percentages — uncaught `ZeroDivisionError`, exit 1.  A present but
non-UTF-8 file dies while being read in `load_resources` — uncaught
`UnicodeDecodeError`, exit 1.  A scoped run with `--recent-days 1000000`
underflows `datetime.min` when computing the cutoff at line 177 — uncaught
`OverflowError`, exit 1. -/
theorem empty_table_exit_counterexample :
    runProgram now0 (FileInput.loaded []) argsEmpty ≠ 0
      ∧ runProgram now0 (FileInput.loaded []) argsEmpty = 1
      ∧ runProgram now0 FileInput.undecodable argsEmpty = 1
      ∧ runProgram now0 (FileInput.loaded [rT])
          (Args.mk none none none none false false (some 1000000) false) = 1 := by
  exact ⟨by decide, by decide, by decide, by decide⟩

/-- C1 (amended): the exit code is always 0 or 1, and it is 1 exactly when
the input file is missing (`sys.exit(1)`); or present but not decodable as
UTF-8 (uncaught `UnicodeDecodeError` while loading); or a truthy filter
selects the scoped report and the `--recent-days` value is present and
overflows the `datetime` range at the cutoff computation (uncaught
`OverflowError`); or the table loads with zero records and the
human-readable high-level report is selected (no truthy filter flag, no
JSON flag), where the overview percentage computation divides by zero
(uncaught `ZeroDivisionError`). -/
theorem exit_code_amended :
    ∀ now file a,
      (runProgram now file a = 0 ∨ runProgram now file a = 1)
        ∧ (runProgram now file a = 1
          ↔ (file = FileInput.missing
              ∨ file = FileInput.undecodable
              ∨ (hasScopedFilters a = true
                  ∧ ∃ n, a.recent_days = some n ∧ cutoffOk now n = false)
              ∨ (file = FileInput.loaded ([] : List Record)
                  ∧ hasScopedFilters a = false ∧ a.json = false))) := by
  intro now file a
  cases file with
  | missing => simp [runProgram]
  | undecodable => simp [runProgram]
  | loaded rs =>
    unfold runProgram mainMode
    by_cases hs : hasScopedFilters a = true
    · cases hrd : a.recent_days with
      | none => simp [hs, hrd]
      | some n =>
        by_cases hc : cutoffOk now n = true
        · simp [hs, hrd, hc]
        · have hc' : cutoffOk now n = false := by
            cases hb : cutoffOk now n
            · rfl
            · exact absurd hb hc
          simp [hs, hrd, hc']
    · have hs' : hasScopedFilters a = false := by
        cases hb : hasScopedFilters a
        · rfl
        · exact absurd hb hs
      by_cases hj : a.json = true
      · simp [hs', hj]
      · have hj' : a.json = false := by
          cases hb : a.json
          · rfl
          · exact absurd hb hj
        cases rs with
        | nil =>
          simp [hs', hj', print_high_level_report, pyDiv, high_level_audit]
        | cons r t =>
          simp [hs', hj', print_high_level_report, pyDiv, high_level_audit]

end Audit
